import Mathlib

/-!
Verification of the radar-chart utility in src/radar_diagram.py.

The Python module defines a class RadarDiagram with:
* radar_factory(num_vars, frame): computes evenly-spaced axis angles with
  numpy linspace(0, 2*pi, num_vars, endpoint=False), registers a RadarAxes
  polar projection whose methods close plotted lines, build the frame patch
  and spines, and returns the angle array;
* draw(filename, data, label, title): builds one figure on a radar
  projection with N = 28 axes and a polygon frame, sets radial grid levels
  from min/max of the data, plots each series with a color from the fixed
  list ['b', 'r'], sets spoke labels, a hard-coded legend, the title text,
  and saves the figure to the given file.

The embedding below is generic over an ordered field to model exact real
arithmetic; theorems instantiate it at ℝ or ℚ (the latter for executable
witnesses).  Exceptions raised by the code (IndexError from indexing,
ValueError from the plotting library and frame dispatch) are modelled with
an Except monad.
-/

/-- Python exceptions that the modelled code can raise. -/
inductive PyError : Type where
  | valueError (msg : String) : PyError
  | indexError : PyError
  deriving DecidableEq

/-- The data of a matplotlib Line2D, as returned by line.get_data():
the array of x coordinates and the array of y coordinates. -/
structure LineData (α : Type) where
  x : List α
  y : List α
  deriving DecidableEq

/-- RadarAxes._close_line (src/radar_diagram.py lines 51-57):
x, y = line.get_data(); if x[0] != x[-1]: append x[0] to x and y[0] to y.
x[0] and x[-1] on an empty array raise IndexError, and y[0] (evaluated
only when the condition is true) likewise. -/
def closeLine {α : Type} [DecidableEq α] (l : LineData α) : Except PyError (LineData α) :=
  match l.x.head?, l.x.getLast? with
  | some x0, some xl =>
      if x0 = xl then .ok l
      else
        match l.y.head? with
        | some y0 => .ok (LineData.mk (l.x ++ [x0]) (l.y ++ [y0]))
        | none => .error .indexError
  | _, _ => .error .indexError

/-- RadarAxes.plot (src/radar_diagram.py lines 45-49) for a single
(x, y) pair of arrays: super().plot creates one line from the data
(the underlying library raises ValueError when the two arrays have
different lengths), and the override then applies _close_line to it. -/
def radarPlot {α : Type} [DecidableEq α] (x y : List α) : Except PyError (LineData α) :=
  if x.length = y.length then closeLine (LineData.mk x y)
  else .error (.valueError "x and y must have same first dimension")

/-- RadarAxes.fill (src/radar_diagram.py lines 41-43): the override
forwards the closed keyword to super().fill, defaulting it to True.
The argument none models a call that omits the keyword; the result is
the value of closed that reaches super().fill. -/
def radarFill (closed : Option Bool) : Bool :=
  closed.getD true

/-- numpy.linspace(start, stop, num, endpoint=False): num samples
start + k * ((stop - start) / num) for k = 0, ..., num - 1. -/
def linspace {α : Type} [Field α] (start stop : α) (num : Nat) : List α :=
  (List.range num).map (fun (k : Nat) => start + (k : α) * ((stop - start) / (num : α)))

/-- The angle array computed by RadarDiagram.radar_factory
(src/radar_diagram.py line 28): theta = np.linspace(0, 2 * np.pi,
num_vars, endpoint=False).  The value of pi is passed as the parameter
piv so that the definition stays generic over the field. -/
def radarFactoryTheta {α : Type} [Field α] (piv : α) (numVars : Nat) : List α :=
  linspace 0 (2 * piv) numVars

/-- A 2D affine transform, as matplotlib's Affine2D stores it: the
matrix [[a, c, e], [b, d, f], [0, 0, 1]]. -/
structure Affine2D (α : Type) where
  a : α
  b : α
  c : α
  d : α
  e : α
  f : α
  deriving DecidableEq

/-- Affine2D(): the identity transform. -/
def Affine2D.identity {α : Type} [Field α] : Affine2D α :=
  Affine2D.mk 1 0 0 1 0 0

/-- Matrix product m2 @ m1 of two affine transforms (m1 applied first). -/
def Affine2D.compose {α : Type} [Field α] (m2 m1 : Affine2D α) : Affine2D α :=
  Affine2D.mk
    (m2.a * m1.a + m2.c * m1.b)
    (m2.b * m1.a + m2.d * m1.b)
    (m2.a * m1.c + m2.c * m1.d)
    (m2.b * m1.c + m2.d * m1.d)
    (m2.a * m1.e + m2.c * m1.f + m2.e)
    (m2.b * m1.e + m2.d * m1.f + m2.f)

/-- Affine2D.scale(s): pre-multiplies the current matrix by the uniform
scale matrix, so the scale applies after the existing transform. -/
def Affine2D.scale {α : Type} [Field α] (t : Affine2D α) (s : α) : Affine2D α :=
  Affine2D.compose (Affine2D.mk s 0 0 s 0 0) t

/-- Affine2D.translate(tx, ty): pre-multiplies the current matrix by the
translation matrix. -/
def Affine2D.translate {α : Type} [Field α] (t : Affine2D α) (tx ty : α) : Affine2D α :=
  Affine2D.compose (Affine2D.mk 1 0 0 1 tx ty) t

/-- Applying an affine transform to a point. -/
def Affine2D.apply {α : Type} [Field α] (t : Affine2D α) (p : α × α) : α × α :=
  (t.a * p.1 + t.c * p.2 + t.e, t.b * p.1 + t.d * p.2 + t.f)

/-- The axes patch returned by RadarAxes._gen_axes_patch. -/
inductive Patch (α : Type) where
  | circle (center : α × α) (radius : α) : Patch α
  | regularPolygon (center : α × α) (numVertices : Nat) (radius : α)
      (edgecolor : String) : Patch α
  deriving DecidableEq

/-- RadarAxes._gen_axes_patch (src/radar_diagram.py lines 62-71):
Circle((0.5, 0.5), 0.5) for frame 'circle', RegularPolygon((0.5, 0.5),
num_vars, radius=.5, edgecolor="k") for frame 'polygon', otherwise
ValueError.  frame and num_vars are the radar_factory closure variables. -/
def genAxesPatch {α : Type} [Field α] (frame : String) (numVars : Nat) :
    Except PyError (Patch α) :=
  if frame = "circle" then .ok (.circle (1/2, 1/2) (1/2))
  else if frame = "polygon" then .ok (.regularPolygon (1/2, 1/2) numVars (1/2) "k")
  else .error (.valueError ("Unknown value for 'frame': " ++ frame))

/-- The transform set on the polygon spine: the Affine2D part built by the
code, and whether it was composed with self.transAxes afterwards. -/
structure SpineTransform (α : Type) where
  pre : Affine2D α
  composedWithTransAxes : Bool
  deriving DecidableEq

/-- The spine dictionary returned by RadarAxes._gen_axes_spines: either
the default polar spines from super(), or a single circle-type spine whose
path is Path.unit_regular_polygon(num_vars) with the recentering
transform. -/
inductive SpinesResult (α : Type) where
  | defaultPolar : SpinesResult α
  | polygonSpine (pathVertices : Nat) (transform : SpineTransform α) : SpinesResult α
  deriving DecidableEq

/-- RadarAxes._gen_axes_spines (src/radar_diagram.py lines 73-88):
super() spines for 'circle'; for 'polygon' a spine with the unit regular
polygon path and transform Affine2D().scale(.5).translate(.5, .5)
composed with self.transAxes; otherwise ValueError. -/
def genAxesSpines {α : Type} [Field α] (frame : String) (numVars : Nat) :
    Except PyError (SpinesResult α) :=
  if frame = "circle" then .ok .defaultPolar
  else if frame = "polygon" then
    .ok (.polygonSpine numVars
      (SpineTransform.mk (((Affine2D.identity).scale (1/2)).translate (1/2) (1/2)) true))
  else .error (.valueError ("Unknown value for 'frame': " ++ frame))

/-- The fixed color list in RadarDiagram.draw (line 130): colors = ['b', 'r']. -/
def colorList : List String := ["b", "r"]

/-- The hard-coded legend labels in RadarDiagram.draw (lines 144-146). -/
def legendLabelsConst : List String :=
  ["Начальные вычисления", "Вычисления через 1/4 проходов",
   "Вычисления через 3/4 проходов", "Конечные вычисления"]

/-- RadarAxes.set_varlabels (src/radar_diagram.py lines 59-60):
self.set_thetagrids(np.degrees(theta), labels).  set_thetagrids fixes one
tick location per angle and then calls Axis.set_ticklabels(labels), which
raises ValueError when the number of labels is neither 0 nor the number
of FixedLocator locations (here len(theta)); otherwise the labels are
set. -/
def setVarlabels {α : Type} (theta : List α) (labels : List String) :
    Except PyError (List String) :=
  if labels.length = 0 ∨ labels.length = theta.length then .ok labels
  else .error (.valueError ("The number of FixedLocator locations ("
    ++ toString theta.length
    ++ "), usually from a call to set_ticks, does not match the number of labels ("
    ++ toString labels.length ++ ")"))

/-- The elements of the 2-dimensional numpy array np.asarray(data), in
row-major order. -/
def flattenData {α : Type} (data : List (List α)) : List α :=
  data.foldr (fun row acc => row ++ acc) []

/-- np.min(data): the least element, or None modelling the ValueError
numpy raises on a zero-size reduction. -/
def npMin {α : Type} [LinearOrder α] (data : List (List α)) : Option α :=
  match flattenData data with
  | [] => none
  | a :: as => some (as.foldl min a)

/-- np.max(data): the greatest element, or None on a zero-size reduction. -/
def npMax {α : Type} [LinearOrder α] (data : List (List α)) : Option α :=
  match flattenData data with
  | [] => none
  | a :: as => some (as.foldl max a)

/-- The radial grid levels set by RadarDiagram.draw (line 134):
(np.min(data), (np.min(data) + np.max(data)) / 2, np.max(data) * 3 / 4,
np.max(data)); an empty data array makes np.min raise ValueError. -/
def drawRgrids {α : Type} [LinearOrderedField α] (data : List (List α)) :
    Except PyError (List α) :=
  match npMin data, npMax data with
  | some mn, some mx => .ok [mn, (mn + mx) / 2, mx * 3 / 4, mx]
  | _, _ => .error (.valueError "zero-size array to reduction operation minimum which has no identity")

/-- The plotting loop of RadarDiagram.draw (lines 138-139):
for ind, i in enumerate(data): axs.plot(theta, i, color=colors[ind]).
colors[ind] is evaluated (IndexError when ind is out of range) before
axs.plot is called on (theta, i). -/
def plotLoop {α : Type} [DecidableEq α] (theta : List α) :
    List (List α) → Nat → Except PyError (List (LineData α × String))
  | [], _ => .ok []
  | i :: rest, ind =>
    match colorList.get? ind with
    | none => .error .indexError
    | some c =>
      match radarPlot theta i with
      | .error e => .error e
      | .ok l =>
        match plotLoop theta rest (ind + 1) with
        | .error e => .error e
        | .ok ls => .ok ((l, c) :: ls)

/-- The observable effects of one successful RadarDiagram.draw call. -/
structure DrawResult (α : Type) where
  numAxes : Nat
  frame : String
  theta : List α
  rgrids : List α
  lines : List (LineData α × String)
  varlabels : List String
  legendLabels : List String
  titleText : String
  savedTo : String
  figures : Nat
  deriving DecidableEq

/-- RadarDiagram.draw (src/radar_diagram.py lines 120-154): N = 28;
theta = radar_factory(28, frame='polygon'); one figure is created;
radial grid levels are set from min/max of data; each series is plotted
against theta with colors['b', 'r'][ind] and closed; spoke labels are set
from the label argument (set_varlabels, line 141, which raises ValueError
when the label count is neither 0 nor 28); then the hard-coded legend is
added, the title text is added to the figure, and the figure is saved to
filename.  np.average(data) on line 133 is computed and discarded. -/
def draw {α : Type} [LinearOrderedField α] [DecidableEq α] (piv : α)
    (filename : String) (data : List (List α)) (label : List String)
    (title : String) : Except PyError (DrawResult α) :=
  let N : Nat := 28
  let theta := radarFactoryTheta piv N
  match drawRgrids data with
  | .error e => .error e
  | .ok grids =>
    match plotLoop theta data 0 with
    | .error e => .error e
    | .ok lines =>
      match setVarlabels theta label with
      | .error e => .error e
      | .ok labs =>
        .ok (DrawResult.mk N "polygon" theta grids lines labs legendLabelsConst
          title filename 1)

/-- A sample well-formed draw input: one data series of 28 zeros, matching
the 28 axes the code always creates. -/
def sampleData : List (List ℚ) := [List.replicate 28 0]

/-- The DrawResult produced by draw on sampleData with pi modelled as 1. -/
def sampleRes (lab : List String) (fn ti : String) : DrawResult ℚ :=
  DrawResult.mk 28 "polygon" (radarFactoryTheta (1 : ℚ) 28) [0, 0, 0, 0]
    [(LineData.mk (radarFactoryTheta (1 : ℚ) 28 ++ [0]) (List.replicate 29 0), "b")]
    lab legendLabelsConst ti fn 1

/-- A second sample input: one series of 28 values ranging over 0 and 2. -/
def sampleData2 : List (List ℚ) := [(0 : ℚ) :: List.replicate 27 2]

/-- The DrawResult produced by draw on sampleData2 with pi modelled as 1. -/
def sampleRes2 : DrawResult ℚ :=
  DrawResult.mk 28 "polygon" (radarFactoryTheta (1 : ℚ) 28)
    [0, (0 + 2) / 2, 2 * 3 / 4, 2]
    [(LineData.mk (radarFactoryTheta (1 : ℚ) 28 ++ [0])
        (((0 : ℚ) :: List.replicate 27 2) ++ [0]), "b")]
    (List.replicate 28 "a") legendLabelsConst "t" "f" 1

set_option maxRecDepth 10000

instance {e a : Type} [DecidableEq e] [DecidableEq a] : DecidableEq (Except e a) := fun x y =>
  match x, y with
  | .error e1, .error e2 =>
    if h : e1 = e2 then .isTrue (by rw [h]) else .isFalse (fun hc => h (Except.error.inj hc))
  | .error _, .ok _ => .isFalse (fun hc => Except.noConfusion hc)
  | .ok _, .error _ => .isFalse (fun hc => Except.noConfusion hc)
  | .ok a1, .ok a2 =>
    if h : a1 = a2 then .isTrue (by rw [h]) else .isFalse (fun hc => h (Except.ok.inj hc))

/-- Helper: inverting a successful draw call into its pieces. -/
theorem draw_ok_elim {α : Type} [LinearOrderedField α] [DecidableEq α] {piv : α}
    {fn : String} {data : List (List α)} {lab : List String} {ti : String}
    {r : DrawResult α} (h : draw piv fn data lab ti = .ok r) :
    ∃ grids lines, drawRgrids data = .ok grids ∧
      plotLoop (radarFactoryTheta piv 28) data 0 = .ok lines ∧
      setVarlabels (radarFactoryTheta piv 28) lab = .ok lab ∧
      r = DrawResult.mk 28 "polygon" (radarFactoryTheta piv 28) grids lines lab
            legendLabelsConst ti fn 1 := by
  simp only [draw] at h
  cases hg : drawRgrids data with
  | error e => rw [hg] at h; exact absurd h (by simp)
  | ok grids =>
    rw [hg] at h
    cases hp : plotLoop (radarFactoryTheta piv 28) data 0 with
    | error e => rw [hp] at h; exact absurd h (by simp)
    | ok lines =>
      rw [hp] at h
      cases hv : setVarlabels (radarFactoryTheta piv 28) lab with
      | error e => rw [hv] at h; exact absurd h (by simp)
      | ok labs =>
        rw [hv] at h
        have hlab : lab = labs := by
          simp only [setVarlabels] at hv
          split at hv
          · exact Except.ok.inj hv
          · exact absurd hv (by simp)
        subst hlab
        exact ⟨grids, lines, rfl, rfl, rfl, (Except.ok.inj h).symm⟩

/-- Helper: a successful radarPlot returns a line whose x data is theta,
either unchanged or with the first angle appended. -/
theorem radarPlot_ok_x {α : Type} [DecidableEq α] {theta i : List α}
    {l : LineData α} (h : radarPlot theta i = .ok l) :
    l.x = theta ∨ ∃ t0, theta.head? = some t0 ∧ l.x = theta ++ [t0] := by
  simp only [radarPlot] at h
  by_cases hlen : theta.length = i.length
  · rw [if_pos hlen] at h
    cases theta with
    | nil => simp [closeLine] at h
    | cons t ts =>
      simp only [closeLine, List.head?_cons] at h
      cases hg : (t :: ts).getLast? with
      | none => simp [hg] at h
      | some g =>
        rw [hg] at h
        simp only [] at h
        by_cases htg : t = g
        · rw [if_pos htg] at h
          left
          rw [← Except.ok.inj h]
        · rw [if_neg htg] at h
          cases hi : i.head? with
          | none => rw [hi] at h; exact absurd h (by simp)
          | some y0 =>
            rw [hi] at h
            simp only [] at h
            right
            exact ⟨t, List.head?_cons, by rw [← Except.ok.inj h]⟩
  · rw [if_neg hlen] at h
    exact absurd h (by simp)

/-- Helper: when the series length matches theta, radarPlot never raises
ValueError: it either succeeds or raises IndexError (empty data). -/
theorem radarPlot_len_cases {α : Type} [DecidableEq α] {theta i : List α}
    (h : i.length = theta.length) :
    (∃ l, radarPlot theta i = .ok l) ∨ radarPlot theta i = .error .indexError := by
  simp only [radarPlot, if_pos h.symm]
  cases theta with
  | nil => simp [closeLine]
  | cons t ts =>
    simp only [closeLine, List.head?_cons]
    cases hg : (t :: ts).getLast? with
    | none => simp at hg
    | some g =>
      simp only []
      by_cases htg : t = g
      · rw [if_pos htg]; exact Or.inl ⟨_, rfl⟩
      · rw [if_neg htg]
        cases hi : i.head? with
        | none =>
          cases i with
          | nil => simp at h
          | cons y ys => simp at hi
        | some y0 => exact Or.inl ⟨_, rfl⟩

/-- Helper: every line produced by the plotting loop has x data theta,
possibly with the first angle appended by _close_line. -/
theorem plotLoop_mem_x {α : Type} [DecidableEq α] (theta : List α) :
    ∀ (data : List (List α)) (ind : Nat) (ls : List (LineData α × String)),
      plotLoop theta data ind = .ok ls →
      ∀ lc ∈ ls, lc.1.x = theta ∨ ∃ t0, theta.head? = some t0 ∧ lc.1.x = theta ++ [t0] := by
  intro data
  induction data with
  | nil =>
    intro ind ls h lc hm
    simp only [plotLoop] at h
    rw [← Except.ok.inj h] at hm
    simp at hm
  | cons i rest ih =>
    intro ind ls h lc hm
    simp only [plotLoop] at h
    cases hc : colorList.get? ind with
    | none => rw [hc] at h; exact absurd h (by simp)
    | some c =>
      rw [hc] at h
      cases hp : radarPlot theta i with
      | error e => rw [hp] at h; exact absurd h (by simp)
      | ok l =>
        rw [hp] at h
        cases hrest : plotLoop theta rest (ind + 1) with
        | error e => rw [hrest] at h; exact absurd h (by simp)
        | ok ls2 =>
          rw [hrest] at h
          rw [← Except.ok.inj h] at hm
          rcases List.mem_cons.mp hm with hhd | htl
          · rw [hhd]
            exact radarPlot_ok_x hp
          · exact ih (ind + 1) ls2 hrest lc htl

/-- C1 (amended): for every line plotted through RadarAxes.plot whose data
is non-empty and whose first x-coordinate differs from its last
x-coordinate (the code compares only x[0] with x[-1], not full points),
the plotted line's data ends with a copy of its first point, so first
point equals last point; and RadarAxes.fill passes closed=True when the
caller omits the keyword. -/
theorem radar_plot_closes_on_x_mismatch {α : Type} [DecidableEq α]
    (x y : List α) (x0 xl y0 : α) (hx : x.head? = some x0)
    (hxl : x.getLast? = some xl) (hy : y.head? = some y0)
    (hlen : x.length = y.length) (hne : x0 ≠ xl) :
    radarPlot x y = .ok (LineData.mk (x ++ [x0]) (y ++ [y0])) ∧
    (x ++ [x0]).head? = some x0 ∧ (x ++ [x0]).getLast? = some x0 ∧
    (y ++ [y0]).head? = some y0 ∧ (y ++ [y0]).getLast? = some y0 ∧
    radarFill none = true := by
  cases x with
  | nil => simp at hx
  | cons a as =>
    cases y with
    | nil => simp at hy
    | cons b bs =>
      have hax : a = x0 := by simpa using hx
      have hby : b = y0 := by simpa using hy
      subst hax
      subst hby
      refine ⟨?_, by simp, List.getLast?_concat _, by simp, List.getLast?_concat _, rfl⟩
      simp only [radarPlot, if_pos hlen, closeLine, List.head?_cons]
      rw [hxl]
      simp only []
      rw [if_neg hne]

/-- C2: for the registered radar projection, frame 'circle' yields the
Circle patch and the default polar spines, frame 'polygon' yields the
RegularPolygon patch and the polygon spine, and every other frame makes
both _gen_axes_patch and _gen_axes_spines raise ValueError. -/
theorem frame_dispatch {α : Type} [Field α] (n : Nat) (frame : String) :
    (frame = "circle" →
      genAxesPatch (α := α) frame n = .ok (.circle (1/2, 1/2) (1/2)) ∧
      genAxesSpines (α := α) frame n = .ok .defaultPolar) ∧
    (frame = "polygon" →
      genAxesPatch (α := α) frame n = .ok (.regularPolygon (1/2, 1/2) n (1/2) "k") ∧
      genAxesSpines (α := α) frame n = .ok (.polygonSpine n
        (SpineTransform.mk (((Affine2D.identity).scale (1/2)).translate (1/2) (1/2))
          true))) ∧
    (frame ≠ "circle" → frame ≠ "polygon" →
      genAxesPatch (α := α) frame n =
        .error (.valueError ("Unknown value for 'frame': " ++ frame)) ∧
      genAxesSpines (α := α) frame n =
        .error (.valueError ("Unknown value for 'frame': " ++ frame))) := by
  refine ⟨?_, ?_, ?_⟩
  · intro h
    subst h
    exact ⟨by simp [genAxesPatch], by simp [genAxesSpines]⟩
  · intro h
    subst h
    exact ⟨by simp [genAxesPatch], by simp [genAxesSpines]⟩
  · intro h1 h2
    exact ⟨by simp [genAxesPatch, h1, h2], by simp [genAxesSpines, h1, h2]⟩

/-- C3: for num_vars at least 1, radar_factory returns an array theta of
exactly num_vars entries with theta[k] = k * 2 * pi / num_vars for every
k below num_vars, so 2*pi itself is excluded. -/
theorem radar_factory_theta_spec {α : Type} [Field α] (piv : α) (n k : Nat)
    (_h1 : 1 ≤ n) (hk : k < n) :
    (radarFactoryTheta piv n).length = n ∧
    (radarFactoryTheta piv n)[k]? = some ((k : α) * (2 * piv) / (n : α)) := by
  constructor
  · rw [radarFactoryTheta, linspace, List.length_map, List.length_range]
  · rw [radarFactoryTheta, linspace, List.getElem?_map, List.getElem?_range hk]
    simp only [Option.map_some']
    congr 1
    ring

/-- C4 (amended): the radial grid levels draw sets are exactly
(min(data), (min(data) + max(data)) / 2, max(data) * 3 / 4, max(data));
this tuple is sorted in non-decreasing order whenever
2 * min(data) ≤ max(data) and 0 ≤ max(data) (it is not sorted in general,
for example on all-equal positive data). -/
theorem draw_rgrids_spec {α : Type} [LinearOrderedField α] [DecidableEq α]
    (piv : α) (fn : String) (data : List (List α)) (lab : List String)
    (ti : String) (r : DrawResult α) (mn mx : α)
    (hmn : npMin data = some mn) (hmx : npMax data = some mx)
    (hdraw : draw piv fn data lab ti = .ok r) :
    drawRgrids data = .ok [mn, (mn + mx) / 2, mx * 3 / 4, mx] ∧
    r.rgrids = [mn, (mn + mx) / 2, mx * 3 / 4, mx] ∧
    (2 * mn ≤ mx → 0 ≤ mx →
      List.Chain' (fun a b => a ≤ b) [mn, (mn + mx) / 2, mx * 3 / 4, mx]) := by
  have hrg : drawRgrids data = .ok [mn, (mn + mx) / 2, mx * 3 / 4, mx] := by
    rw [drawRgrids, hmn, hmx]
  refine ⟨hrg, ?_, ?_⟩
  · obtain ⟨grids, lines, hg, hp, hv, hr⟩ := draw_ok_elim hdraw
    rw [hrg] at hg
    rw [hr]
    exact (Except.ok.inj hg).symm
  · intro h2 h0
    have hchain : mn ≤ (mn + mx) / 2 ∧ (mn + mx) / 2 ≤ mx * 3 / 4 ∧ mx * 3 / 4 ≤ mx :=
      ⟨by linarith, by linarith, by linarith⟩
    simp only [List.chain'_cons, List.chain'_singleton, and_true]
    exact ⟨hchain.1, hchain.2.1, hchain.2.2⟩

/-- C5: a successful draw call records exactly one figure, saved to the
given filename, with the spoke labels set from the label argument (draw
succeeds only when the label count passes set_varlabels, i.e. is 0 or
28), four radial grid levels set, the (hard-coded) legend added, and the
title text added to the figure. -/
theorem draw_renders_effects {α : Type} [LinearOrderedField α] [DecidableEq α]
    (piv : α) (fn : String) (data : List (List α)) (lab : List String)
    (ti : String) (r : DrawResult α)
    (hdraw : draw piv fn data lab ti = .ok r) :
    r.figures = 1 ∧ r.savedTo = fn ∧ r.varlabels = lab ∧ r.titleText = ti ∧
    r.rgrids.length = 4 ∧ r.legendLabels = legendLabelsConst ∧
    (lab.length = 0 ∨ lab.length = 28) := by
  obtain ⟨grids, lines, hg, hp, hv, hr⟩ := draw_ok_elim hdraw
  have hlen : grids.length = 4 := by
    rw [drawRgrids] at hg
    cases hmn : npMin data with
    | none => rw [hmn] at hg; simp at hg
    | some mn =>
      cases hmx : npMax data with
      | none => rw [hmn, hmx] at hg; simp at hg
      | some mx =>
        rw [hmn, hmx] at hg
        simp only [] at hg
        rw [← Except.ok.inj hg]
        rfl
  have hlen28 : (radarFactoryTheta piv 28).length = 28 := by
    rw [radarFactoryTheta, linspace, List.length_map, List.length_range]
  have hcount : lab.length = 0 ∨ lab.length = 28 := by
    simp only [setVarlabels] at hv
    split at hv
    · rename_i hcond
      rcases hcond with h0 | hth
      · exact Or.inl h0
      · rw [hlen28] at hth
        exact Or.inr hth
    · exact absurd hv (by simp)
  rw [hr]
  exact ⟨rfl, rfl, rfl, rfl, hlen, rfl, hcount⟩

/-- C6: for the polygon frame, the spine transform the code builds before
composing with the axes transform sends every point p to p/2 + (0.5, 0.5),
so the unit regular polygon of radius 1 centered at the origin is mapped
to the regular polygon of radius 0.5 centered at (0.5, 0.5) in axes
coordinates. -/
theorem polygon_spine_transform_spec {α : Type} [Field α] (n : Nat) :
    genAxesSpines (α := α) "polygon" n = .ok (.polygonSpine n
      (SpineTransform.mk (((Affine2D.identity).scale (1/2)).translate (1/2) (1/2))
        true)) ∧
    ∀ p : α × α,
      (((Affine2D.identity).scale (1/2)).translate (1/2) (1/2)).apply p =
        (p.1 / 2 + 1/2, p.2 / 2 + 1/2) := by
  constructor
  · simp [genAxesSpines]
  · intro p
    apply Prod.ext
    · simp only [Affine2D.identity, Affine2D.scale, Affine2D.translate,
        Affine2D.compose, Affine2D.apply]
      ring
    · simp only [Affine2D.identity, Affine2D.scale, Affine2D.translate,
        Affine2D.compose, Affine2D.apply]
      ring

/-- C7: _close_line is idempotent: a non-empty line whose first point
already equals its last point is left unchanged, and applying _close_line
twice gives the same data as applying it once. -/
theorem close_line_idempotent {α : Type} [DecidableEq α] (l : LineData α)
    (hx : l.x ≠ []) :
    ((l.x.head? = l.x.getLast? ∧ l.y.head? = l.y.getLast?) → closeLine l = .ok l) ∧
    (closeLine l).bind closeLine = closeLine l := by
  obtain ⟨lx, ly⟩ := l
  cases lx with
  | nil => exact absurd rfl hx
  | cons x0 xs =>
    cases hg : (x0 :: xs).getLast? with
    | none => simp at hg
    | some g =>
      constructor
      · intro hfl
        have hx0g : x0 = g := by
          have := hfl.1
          simp only [List.head?_cons, hg] at this
          exact Option.some.inj this
      
        simp only [closeLine, List.head?_cons]
        rw [hg]
        simp only []
        rw [if_pos hx0g]
      · by_cases hx0g : x0 = g
        · have hok : closeLine (LineData.mk (x0 :: xs) ly) = .ok (LineData.mk (x0 :: xs) ly) := by
            simp only [closeLine, List.head?_cons]
            rw [hg]
            simp only []
            rw [if_pos hx0g]
          rw [hok]
          exact hok
        · cases ly with
          | nil =>
            have herr : closeLine (LineData.mk (x0 :: xs) ([] : List α)) =
                .error .indexError := by
              simp only [closeLine, List.head?_cons]
              rw [hg]
              simp only []
              rw [if_neg hx0g]
              rfl
            rw [herr]
            rfl
          | cons y0 ys =>
            have hok : closeLine (LineData.mk (x0 :: xs) (y0 :: ys)) =
                .ok (LineData.mk ((x0 :: xs) ++ [x0]) ((y0 :: ys) ++ [y0])) := by
              simp only [closeLine, List.head?_cons]
              rw [hg]
              simp only []
              rw [if_neg hx0g]
            rw [hok]
            have hh2 : ((x0 :: xs) ++ [x0]).head? = some x0 := by simp
            have hg2 : ((x0 :: xs) ++ [x0]).getLast? = some x0 := List.getLast?_concat _
            have hok2 : closeLine (LineData.mk ((x0 :: xs) ++ [x0]) ((y0 :: ys) ++ [y0])) =
                .ok (LineData.mk ((x0 :: xs) ++ [x0]) ((y0 :: ys) ++ [y0])) := by
              simp only [closeLine]
              rw [hh2, hg2]
              simp
            exact hok2

/-- Helper: the loop raises IndexError as soon as the color lookup fails. -/
theorem plotLoop_cons_color_none {α : Type} [DecidableEq α] {theta i : List α}
    {rest : List (List α)} {ind : Nat} (h : colorList.get? ind = none) :
    plotLoop theta (i :: rest) ind = .error .indexError := by
  simp only [plotLoop, h]

/-- Helper: the loop propagates an error raised by plot. -/
theorem plotLoop_cons_plot_error {α : Type} [DecidableEq α] {theta i : List α}
    {rest : List (List α)} {ind : Nat} {c : String} {e : PyError}
    (hc : colorList.get? ind = some c) (hp : radarPlot theta i = .error e) :
    plotLoop theta (i :: rest) ind = .error e := by
  simp only [plotLoop, hc, hp]

/-- Helper: the loop propagates an error raised by a later iteration. -/
theorem plotLoop_cons_rest_error {α : Type} [DecidableEq α] {theta i : List α}
    {rest : List (List α)} {ind : Nat} {c : String} {l : LineData α} {e : PyError}
    (hc : colorList.get? ind = some c) (hp : radarPlot theta i = .ok l)
    (hr : plotLoop theta rest (ind + 1) = .error e) :
    plotLoop theta (i :: rest) ind = .error e := by
  simp only [plotLoop, hc, hp, hr]

/-- C8: every successful draw call uses exactly 28 axes and the polygon
frame: the angle array is radar_factory's theta for 28 variables, of
length 28, regardless of the data series or label list, and every plotted
line's x data is that theta (possibly closed by appending its first
angle). -/
theorem draw_fixed_axes {α : Type} [LinearOrderedField α] [DecidableEq α]
    (piv : α) (fn : String) (data : List (List α)) (lab : List String)
    (ti : String) (r : DrawResult α) (lc : LineData α × String)
    (hdraw : draw piv fn data lab ti = .ok r) (hlc : lc ∈ r.lines) :
    r.numAxes = 28 ∧ r.frame = "polygon" ∧ r.theta = radarFactoryTheta piv 28 ∧
    r.theta.length = 28 ∧
    (lc.1.x = r.theta ∨ ∃ t0, r.theta.head? = some t0 ∧ lc.1.x = r.theta ++ [t0]) := by
  obtain ⟨grids, lines, hg, hp, hv, hr⟩ := draw_ok_elim hdraw
  subst hr
  refine ⟨rfl, rfl, rfl, ?_, ?_⟩
  · show (radarFactoryTheta piv 28).length = 28
    rw [radarFactoryTheta, linspace, List.length_map, List.length_range]
  · exact plotLoop_mem_x (radarFactoryTheta piv 28) data 0 lines hp lc hlc

/-- C9 (amended): draw can only color two data series: the loop looks the
color up in the fixed two-element list ['b', 'r'], so for at most 2 series
every lookup the loop performs succeeds, and for 3 or more series whose
lengths match theta the loop raises IndexError (with mismatched series
lengths, plot's ValueError preempts it at an earlier series). -/
theorem plot_loop_colors_spec {α : Type} [DecidableEq α] (theta : List α)
    (data : List (List α)) :
    (data.length ≤ 2 → ∀ ind, ind < data.length → ∃ c, colorList.get? ind = some c) ∧
    (3 ≤ data.length → (∀ i ∈ data, i.length = theta.length) →
      plotLoop theta data 0 = .error .indexError) := by
  constructor
  · intro hle ind hind
    have h2 : ind < 2 := lt_of_lt_of_le hind hle
    interval_cases ind
    · exact ⟨"b", rfl⟩
    · exact ⟨"r", rfl⟩
  · cases data with
    | nil => intro h3 _; exact absurd h3 (by simp)
    | cons a d1 =>
      cases d1 with
      | nil => intro h3 _; exact absurd h3 (by simp)
      | cons b d2 =>
        cases d2 with
        | nil => intro h3 _; exact absurd h3 (by simp)
        | cons c rest =>
          intro _ hlen
          have ha : a.length = theta.length := hlen a (by simp)
          have hb : b.length = theta.length := hlen b (by simp)
          have hc2 : plotLoop theta (c :: rest) 2 = .error .indexError :=
            plotLoop_cons_color_none rfl
          have h1 : plotLoop theta (b :: c :: rest) 1 = .error .indexError := by
            rcases @radarPlot_len_cases α _ theta b hb with ⟨l2, hl2⟩ | hl2
            · exact plotLoop_cons_rest_error rfl hl2 hc2
            · exact plotLoop_cons_plot_error rfl hl2
          rcases @radarPlot_len_cases α _ theta a ha with ⟨l1, hl1⟩ | hl1
          · exact plotLoop_cons_rest_error rfl hl1 h1
          · exact plotLoop_cons_plot_error rfl hl1

/-- C10: the legend text draw builds is independent of the data, label and
title arguments: every successful call records the same four hard-coded
legend strings, so two calls with different inputs have identical legend
text. -/
theorem draw_legend_constant {α : Type} [LinearOrderedField α] [DecidableEq α]
    (piv1 piv2 : α) (fn1 fn2 : String) (d1 d2 : List (List α))
    (l1 l2 : List String) (t1 t2 : String) (r1 r2 : DrawResult α)
    (h1 : draw piv1 fn1 d1 l1 t1 = .ok r1) (h2 : draw piv2 fn2 d2 l2 t2 = .ok r2) :
    r1.legendLabels = legendLabelsConst ∧ r2.legendLabels = legendLabelsConst ∧
    r1.legendLabels = r2.legendLabels := by
  obtain ⟨g1, ls1, hga, hpa, hva, hr1⟩ := draw_ok_elim h1
  obtain ⟨g2, ls2, hgb, hpb, hvb, hr2⟩ := draw_ok_elim h2
  subst hr1
  subst hr2
  exact ⟨rfl, rfl, rfl⟩

section

attribute [local semireducible] Rat.add Rat.mul Rat.inv Rat.sub

/-- C1 counterexample: the line with points (1,2), (1,3) has at least one
point and its first point differs from its last point, yet RadarAxes.plot
leaves its data unchanged (the code compares only x[0] with x[-1]), so
after plotting the data does not end with a copy of the first point. -/
theorem radar_plot_close_x_only_cex :
    radarPlot [(1 : ℚ), 1] [(2 : ℚ), 3] = .ok (LineData.mk [(1 : ℚ), 1] [(2 : ℚ), 3]) ∧
    ([(1 : ℚ), 1].head?, [(2 : ℚ), 3].head?) = (some (1 : ℚ), some (2 : ℚ)) ∧
    ([(1 : ℚ), 1].getLast?, [(2 : ℚ), 3].getLast?) = (some (1 : ℚ), some (3 : ℚ)) ∧
    ((1 : ℚ), (2 : ℚ)) ≠ ((1 : ℚ), (3 : ℚ)) := by
  refine ⟨by decide, by decide, by decide, by decide⟩

/-- C1 witness: the amended closing property at the concrete line
x = [1, 2], y = [3, 4]. -/
theorem radar_plot_closes_on_x_mismatch_witness :
    ((1 : ℚ) ≠ 2) ∧
    (radarPlot [(1 : ℚ), 2] [(3 : ℚ), 4] =
        .ok (LineData.mk ([(1 : ℚ), 2] ++ [1]) ([(3 : ℚ), 4] ++ [3])) ∧
      ([(1 : ℚ), 2] ++ [1]).head? = some 1 ∧
      ([(1 : ℚ), 2] ++ [1]).getLast? = some 1 ∧
      ([(3 : ℚ), 4] ++ [3]).head? = some 3 ∧
      ([(3 : ℚ), 4] ++ [3]).getLast? = some 3 ∧
      radarFill none = true) :=
  ⟨by decide,
   radar_plot_closes_on_x_mismatch [(1 : ℚ), 2] [(3 : ℚ), 4] 1 2 3 (by decide)
     (by decide) (by decide) (by decide) (by decide)⟩

/-- C2 witness: the frame dispatch at the concrete frames 'circle',
'polygon' and 'square' with 5 variables. -/
theorem frame_dispatch_witness :
    (genAxesPatch (α := ℚ) "circle" 5 = .ok (.circle (1/2, 1/2) (1/2)) ∧
      genAxesSpines (α := ℚ) "circle" 5 = .ok .defaultPolar) ∧
    (genAxesPatch (α := ℚ) "polygon" 5 = .ok (.regularPolygon (1/2, 1/2) 5 (1/2) "k") ∧
      genAxesSpines (α := ℚ) "polygon" 5 = .ok (.polygonSpine 5
        (SpineTransform.mk (((Affine2D.identity).scale (1/2)).translate (1/2) (1/2))
          true))) ∧
    (genAxesPatch (α := ℚ) "square" 5 =
        .error (.valueError ("Unknown value for 'frame': " ++ "square")) ∧
      genAxesSpines (α := ℚ) "square" 5 =
        .error (.valueError ("Unknown value for 'frame': " ++ "square"))) :=
  ⟨(frame_dispatch (α := ℚ) 5 "circle").1 rfl,
   (frame_dispatch (α := ℚ) 5 "polygon").2.1 rfl,
   (frame_dispatch (α := ℚ) 5 "square").2.2 (by decide) (by decide)⟩

/-- C3 witness: the theta array for 4 variables at index 3, with pi
modelled as 1. -/
theorem radar_factory_theta_spec_witness :
    (1 ≤ 4) ∧ (3 < 4) ∧
    ((radarFactoryTheta (1 : ℚ) 4).length = 4 ∧
      (radarFactoryTheta (1 : ℚ) 4)[3]? = some (((3 : Nat) : ℚ) * (2 * 1) / ((4 : Nat) : ℚ))) :=
  ⟨by decide, by decide, radar_factory_theta_spec (1 : ℚ) 4 3 (by decide) (by decide)⟩

/-- C4 counterexample: on the data [[1]] the radial grid levels are
(1, 1, 3/4, 1), which is not sorted in non-decreasing order. -/
theorem draw_rgrids_not_sorted_cex :
    drawRgrids [[(1 : ℚ)]] = .ok [1, (1 + 1) / 2, 1 * 3 / 4, 1] ∧
    ¬ List.Chain' (fun a b => a ≤ b) [(1 : ℚ), (1 + 1) / 2, 1 * 3 / 4, 1] := by
  constructor
  · decide
  · intro h
    rw [List.chain'_cons, List.chain'_cons] at h
    have h2 := h.2.1
    norm_num at h2

/-- C4 witness: the amended grid-level property on one series of 28
values ranging over 0 and 2, where min = 0 and max = 2. -/
theorem draw_rgrids_spec_witness :
    npMin sampleData2 = some 0 ∧ npMax sampleData2 = some 2 ∧
    (drawRgrids sampleData2 = .ok [(0 : ℚ), (0 + 2) / 2, 2 * 3 / 4, 2] ∧
      sampleRes2.rgrids = [(0 : ℚ), (0 + 2) / 2, 2 * 3 / 4, 2] ∧
      (2 * 0 ≤ (2 : ℚ) → 0 ≤ (2 : ℚ) →
        List.Chain' (fun a b => a ≤ b) [(0 : ℚ), (0 + 2) / 2, 2 * 3 / 4, 2])) :=
  ⟨by decide, by decide,
   draw_rgrids_spec 1 "f" sampleData2 (List.replicate 28 "a") "t" sampleRes2 0 2
     (by decide) (by decide) (by decide)⟩

/-- C5 witness: the rendering effects of a concrete successful draw call
with a 28-element label list. -/
theorem draw_renders_effects_witness :
    draw (1 : ℚ) "out.png" sampleData (List.replicate 28 "a") "t" =
      .ok (sampleRes (List.replicate 28 "a") "out.png" "t") ∧
    ((sampleRes (List.replicate 28 "a") "out.png" "t").figures = 1 ∧
      (sampleRes (List.replicate 28 "a") "out.png" "t").savedTo = "out.png" ∧
      (sampleRes (List.replicate 28 "a") "out.png" "t").varlabels =
        List.replicate 28 "a" ∧
      (sampleRes (List.replicate 28 "a") "out.png" "t").titleText = "t" ∧
      (sampleRes (List.replicate 28 "a") "out.png" "t").rgrids.length = 4 ∧
      (sampleRes (List.replicate 28 "a") "out.png" "t").legendLabels =
        legendLabelsConst ∧
      ((List.replicate 28 "a").length = 0 ∨ (List.replicate 28 "a").length = 28)) :=
  ⟨by decide,
   draw_renders_effects 1 "out.png" sampleData (List.replicate 28 "a") "t"
     (sampleRes (List.replicate 28 "a") "out.png" "t") (by decide)⟩

/-- C7 witness: idempotence of _close_line at the concrete line
x = [1, 2, 1], y = [4, 5, 4]. -/
theorem close_line_idempotent_witness :
    ((LineData.mk [(1 : ℚ), 2, 1] [(4 : ℚ), 5, 4]).x ≠ []) ∧
    (((LineData.mk [(1 : ℚ), 2, 1] [(4 : ℚ), 5, 4]).x.head? =
          (LineData.mk [(1 : ℚ), 2, 1] [(4 : ℚ), 5, 4]).x.getLast? ∧
        (LineData.mk [(1 : ℚ), 2, 1] [(4 : ℚ), 5, 4]).y.head? =
          (LineData.mk [(1 : ℚ), 2, 1] [(4 : ℚ), 5, 4]).y.getLast?) →
      closeLine (LineData.mk [(1 : ℚ), 2, 1] [(4 : ℚ), 5, 4]) =
        .ok (LineData.mk [(1 : ℚ), 2, 1] [(4 : ℚ), 5, 4])) ∧
    ((closeLine (LineData.mk [(1 : ℚ), 2, 1] [(4 : ℚ), 5, 4])).bind closeLine =
      closeLine (LineData.mk [(1 : ℚ), 2, 1] [(4 : ℚ), 5, 4])) := by
  have h := close_line_idempotent (LineData.mk [(1 : ℚ), 2, 1] [(4 : ℚ), 5, 4]) (by decide)
  exact ⟨by decide, h.1, h.2⟩

/-- C8 witness: the fixed 28-axis polygon setup at a concrete successful
draw call, with the single plotted line as the member. -/
theorem draw_fixed_axes_witness :
    ((sampleRes (List.replicate 28 "a") "f" "t").numAxes = 28 ∧
      (sampleRes (List.replicate 28 "a") "f" "t").frame = "polygon" ∧
      (sampleRes (List.replicate 28 "a") "f" "t").theta = radarFactoryTheta (1 : ℚ) 28 ∧
      (sampleRes (List.replicate 28 "a") "f" "t").theta.length = 28 ∧
      ((LineData.mk (radarFactoryTheta (1 : ℚ) 28 ++ [0]) (List.replicate 29 (0 : ℚ)),
          "b").1.x = (sampleRes (List.replicate 28 "a") "f" "t").theta ∨
        ∃ t0, (sampleRes (List.replicate 28 "a") "f" "t").theta.head? = some t0 ∧
          (LineData.mk (radarFactoryTheta (1 : ℚ) 28 ++ [0]) (List.replicate 29 (0 : ℚ)),
            "b").1.x = (sampleRes (List.replicate 28 "a") "f" "t").theta ++ [t0])) :=
  draw_fixed_axes 1 "f" sampleData (List.replicate 28 "a") "t"
    (sampleRes (List.replicate 28 "a") "f" "t")
    (LineData.mk (radarFactoryTheta (1 : ℚ) 28 ++ [0]) (List.replicate 29 0), "b")
    (by decide) (by decide)

/-- C9 counterexample: three series of length 1 against the 28-angle
theta: the loop raises ValueError from plot at the first series, not
IndexError. -/
theorem plot_loop_colors_cex :
    ([[(1 : ℚ)], [1], [1]] : List (List ℚ)).length = 3 ∧
    plotLoop (radarFactoryTheta (1 : ℚ) 28) [[(1 : ℚ)], [1], [1]] 0 =
      .error (.valueError "x and y must have same first dimension") ∧
    plotLoop (radarFactoryTheta (1 : ℚ) 28) [[(1 : ℚ)], [1], [1]] 0 ≠
      .error .indexError := by
  refine ⟨rfl, by decide, by decide⟩

/-- C9 witness: the color lookup succeeds at index 1 for two series, and
three full-length series make the loop raise IndexError. -/
theorem plot_loop_colors_witness :
    (∃ c, colorList.get? 1 = some c) ∧
    plotLoop (radarFactoryTheta (1 : ℚ) 28)
      [List.replicate 28 (0 : ℚ), List.replicate 28 0, List.replicate 28 0] 0 =
      .error .indexError :=
  ⟨(plot_loop_colors_spec (radarFactoryTheta (1 : ℚ) 28)
      [List.replicate 28 (0 : ℚ), List.replicate 28 0]).1 (by decide) 1 (by decide),
   (plot_loop_colors_spec (radarFactoryTheta (1 : ℚ) 28)
      [List.replicate 28 (0 : ℚ), List.replicate 28 0, List.replicate 28 0]).2
     (by decide) (by decide)⟩

/-- C10 witness: two concrete draw calls with different labels and titles
record identical legend text. -/
theorem draw_legend_constant_witness :
    ((sampleRes (List.replicate 28 "a") "f1" "t1").legendLabels = legendLabelsConst ∧
      (sampleRes [] "f2" "t2").legendLabels = legendLabelsConst ∧
      (sampleRes (List.replicate 28 "a") "f1" "t1").legendLabels =
        (sampleRes [] "f2" "t2").legendLabels) :=
  draw_legend_constant 1 1 "f1" "f2" sampleData sampleData
    (List.replicate 28 "a") [] "t1" "t2"
    (sampleRes (List.replicate 28 "a") "f1" "t1") (sampleRes [] "f2" "t2")
    (by decide) (by decide)

end
